import Mathlib

/-!
Verification development for the repak_rivals_api repository
(files `src/scraper.py` and `src/main.py`).

The Python code is shallowly embedded: pure fragments become Lean
functions, I/O-dependent fragments (network fetches, the on-disk cache)
take their external inputs as explicit parameters and return the updated
state, and Python exceptions are modelled with `Except PyError`.
Python strings are Lean `String`s; the handful of Python string methods
the code uses (`in`, `lower`, `strip`, `replace`, slicing, `isdigit`,
`isalnum`) are modelled below, each with a comment stating any
restriction of the model.
-/

/-! ### Python string primitives -/

/-- Model of Python list/str prefix testing: `s.startswith(pat)` on the
character-list view. -/
def isPrefixL : List Char → List Char → Bool
  | [], _ => true
  | _ :: _, [] => false
  | a :: as, b :: bs => a == b && isPrefixL as bs

/-- Model of Python substring containment `pat in s` (character lists). -/
def isInfixL (pat : List Char) : List Char → Bool
  | [] => isPrefixL pat []
  | l@(_ :: t) => isPrefixL pat l || isInfixL pat t

/-- Model of Python `pat in s` on strings. -/
def pyContains (pat s : String) : Bool :=
  isInfixL pat.data s.data

/-- Model of Python `str.lower`, restricted to ASCII letters.  The only
use in the source is the case-insensitive `"(battlepass)"` substring
test, whose pattern is pure ASCII. -/
def pyLower (s : String) : String :=
  ⟨s.data.map Char.toLower⟩

/-- Characters removed by Python `str.strip()` (default whitespace set,
modelled for the ASCII whitespace characters). -/
def pyIsSpace (c : Char) : Bool :=
  c == ' ' || c == '\t' || c == '\n' || c == '\r' ||
  c.toNat == 0x0B || c.toNat == 0x0C

/-- Model of Python `str.strip()`. -/
def pyStrip (s : String) : String :=
  ⟨((s.data.dropWhile pyIsSpace).reverse.dropWhile pyIsSpace).reverse⟩

/-- Model of Python `str.isalnum` on a single character. Faithful for
all code points below U+0100 (ASCII alphanumerics plus the Latin-1
letters and numeric signs that Python classifies as alphanumeric).
Python also accepts many alphanumeric code points above U+00FF that this
model maps to `false`; no theorem below depends on those. -/
def pyIsAlnum (c : Char) : Bool :=
  let n := c.toNat
  (65 ≤ n && n ≤ 90) || (97 ≤ n && n ≤ 122) || (48 ≤ n && n ≤ 57) ||
  n == 0xAA || n == 0xB5 || n == 0xBA ||
  n == 0xB2 || n == 0xB3 || n == 0xB9 ||
  n == 0xBC || n == 0xBD || n == 0xBE ||
  (0xC0 ≤ n && n ≤ 0xFF && n != 0xD7 && n != 0xF7)

/-- Model of Python `s[:n]` for strings. -/
def strTake (n : Nat) (s : String) : String :=
  ⟨s.data.take n⟩

/-- Model of Python `text.isdigit()`, restricted to ASCII digits (the
IDs on the scraped pages are ASCII numerals). -/
def pyIsDigitStr (s : String) : Bool :=
  !s.data.isEmpty && s.data.all Char.isDigit

/-- Model of Python `s.replace(pat, "")` on character lists: removes
every non-overlapping occurrence of `pat`, left to right.  The one call
site passes the nonempty pattern `"(<hero.name>)"`; an empty pattern is
returned unchanged (never exercised). -/
def removeAllL (pat : List Char) (s : List Char) : List Char :=
  if hpat : pat.isEmpty then s
  else
    match s with
    | [] => []
    | c :: rest =>
      if isPrefixL pat (c :: rest) then
        removeAllL pat ((c :: rest).drop pat.length)
      else
        c :: removeAllL pat rest
termination_by s.length
decreasing_by
  · simp only [List.length_drop, List.length_cons]
    have : pat.length ≠ 0 := by
      intro h0
      exact hpat (List.isEmpty_iff_length_eq_zero.mpr h0)
    omega
  · simp

/-- Model of Python `s.replace(pat, "")` on strings. -/
def pyRemoveAll (s pat : String) : String :=
  ⟨removeAllL pat.data s.data⟩

/-! ### JSON values and Python-level operations on them

`json.dump`/`json.load` round-trip through this value type.  Numbers
are modelled as integers: the only numeric field is the cache
`timestamp`, which the code uses solely through subtraction and an
order comparison, so integer-second granularity is structure-preserving.
Object fields are an association list; the JSON written by this code
never has duplicate keys. -/

inductive Json where
  | null
  | bool (b : Bool)
  | num (n : Int)
  | str (s : String)
  | arr (xs : List Json)
  | obj (fields : List (String × Json))

/-- Python `d.get(k)` returning `none` when the key is absent. -/
def objGet? (fields : List (String × Json)) (k : String) : Option Json :=
  (fields.find? (fun p => p.1 == k)).map (fun p => p.2)

/-- Python `d.get(k, dflt)`. -/
def objGetD (fields : List (String × Json)) (k : String) (dflt : Json) : Json :=
  (objGet? fields k).getD dflt

/-- Python truthiness of a JSON value (`if cached:` and friends). -/
def pyTruthy : Json → Bool
  | .null => false
  | .bool b => b
  | .num n => n != 0
  | .str s => !s.data.isEmpty
  | .arr xs => !xs.isEmpty
  | .obj fs => !fs.isEmpty

/-- Python `==` between a JSON value and an `int`: true only for equal
numbers (Python `bool` compares as 0/1); a JSON string never equals an
`int`. -/
def pyEqInt (j : Json) (n : Int) : Bool :=
  match j with
  | .num m => m == n
  | .bool b => (if b then (1 : Int) else 0) == n
  | _ => false

/-! ### Python exceptions -/

inductive PyError where
  | attributeError
  | typeError
  | indexError
  | keyError
  | fetchError
  | other (msg : String)
deriving DecidableEq

/-! ### The on-disk cache (`Cache` in src/scraper.py) -/

/-- State of one cache file on disk. -/
inductive FileState where
  | missing
  | unparsable
  | parsed (j : Json)

/-- The cache directory, keyed by sanitized file stem. -/
def Store := String → FileState

/-- Writing one file (full overwrite). -/
def storeSet (s : Store) (k : String) (f : FileState) : Store :=
  fun k2 => if k2 == k then f else s k2

/-- Embedding of `Cache._get_path`'s key sanitization:
`"".join(c if c.isalnum() else "_" for c in key)`. -/
def sanitize_key (key : String) : String :=
  ⟨key.data.map (fun c => if pyIsAlnum c then c else '_')⟩

/-- Embedding of `Cache.get` (src/scraper.py lines 68-86) for a given
file state and current time.  A missing file or unparsable JSON is a
miss (`JSONDecodeError` is caught); on parsed JSON the code runs
`data.get("timestamp", 0)` — which raises `AttributeError` when the
parsed value is not an object — and `time.time() - timestamp`, which
raises `TypeError` when the timestamp is neither a number nor a bool.
Neither exception is caught (`except (json.JSONDecodeError, KeyError)`).
The returned `Json.null` stands for Python `None` (a miss): an absent
or null `payload` field is returned as Python `None` either way. -/
def cacheGet (ttl now : Int) (file : FileState) : Except PyError Json :=
  match file with
  | .missing => .ok .null
  | .unparsable => .ok .null
  | .parsed (.obj fields) =>
    match objGetD fields "timestamp" (.num 0) with
    | .num t =>
      if ttl ≤ now - t then .ok .null
      else .ok (objGetD fields "payload" .null)
    | .bool b =>
      if ttl ≤ now - (if b then 1 else 0) then .ok .null
      else .ok (objGetD fields "payload" .null)
    | _ => .error .typeError
  | .parsed _ => .error .attributeError

/-- Embedding of `Cache.set`: writes `{"timestamp": now, "payload": p}`,
fully overwriting the file. -/
def cacheSet (now : Int) (payload : Json) : FileState :=
  .parsed (.obj [("timestamp", .num now), ("payload", payload)])

/-! ### Domain entities (src/scraper.py dataclasses) -/

/-- Embedding of the `Hero` dataclass. -/
structure Hero where
  name : String
  url : String
  id : Option String
deriving DecidableEq

/-- Embedding of the `HeroSkin` dataclass. -/
structure HeroSkin where
  base_hero : Hero
  name : String
  url : String
  id : Option String
deriving DecidableEq

/-- Constant `BASE` from src/scraper.py. -/
def BASE : String := "https://marvelrivals.fandom.com/wiki"

/-- Model of `urllib.parse.urljoin(BASE, href)`, restricted to the href
shapes that occur here: the CSS selectors only admit site-root-relative
targets (starting with "/"), which resolve against BASE's scheme and
authority; an empty href resolves to the base itself, and anything else
(an absolute URL) is returned unchanged. -/
def urljoin (base url : String) : String :=
  if isPrefixL ['/'] url.data then "https://marvelrivals.fandom.com" ++ url
  else if url.data.isEmpty then base
  else url

/-- Option-to-JSON for the nullable id fields. -/
def jsonOfOptStr : Option String → Json
  | none => .null
  | some s => .str s

/-- Serialization of a `Hero` as produced by `dataclasses.asdict`
(declaration field order: name, url, id). -/
def heroToJson (h : Hero) : Json :=
  .obj [("name", .str h.name), ("url", .str h.url), ("id", jsonOfOptStr h.id)]

/-- Model of a Python list comprehension over `Except`: left to right,
the first exception propagates. -/
def mapE (f : α → Except PyError β) : List α → Except PyError (List β)
  | [] => .ok []
  | a :: l =>
    match f a with
    | .error e => .error e
    | .ok b =>
      match mapE f l with
      | .error e => .error e
      | .ok bs => .ok (b :: bs)

/-- Model of `Hero(**item)` on a cached JSON item.  `asdict` always
writes exactly the keys name, url, id in declaration order, so the
decoder matches that exact shape; any other shape raises `TypeError` in
Python (wrong/missing keyword arguments or a non-mapping item).  A
non-string name/url (never produced by this code) is mapped to a model
error. -/
def heroFromJson : Json → Except PyError Hero
  | .obj [("name", .str n), ("url", .str u), ("id", .null)] => .ok ⟨n, u, none⟩
  | .obj [("name", .str n), ("url", .str u), ("id", .str s)] => .ok ⟨n, u, some s⟩
  | .obj [("name", _), ("url", _), ("id", _)] => .error (.other "non-string field")
  | _ => .error .typeError

/-- Model of `[Hero(**item) for item in cached]`: iterating a non-list
JSON value either raises `TypeError` outright or feeds non-mapping items
to `Hero(**item)`, which also raises `TypeError`. -/
def decodeHeroes : Json → Except PyError (List Hero)
  | .arr items => mapE heroFromJson items
  | _ => .error .typeError

/-! ### fetch_heroes / get_heroes -/

/-- One `<a>` element selected by `.herocard-link a` on the heroes index
page: its text content and its (possibly absent) href attribute. -/
structure Anchor where
  text : String
  href : Option String

/-- Embedding of `fetch_heroes` (src/scraper.py lines 101-110).  The
network input is the outcome of `get_soup(HEROES_URL)`: either an
exception or the selected anchor list in document order.  `a["href"]`
raises `KeyError` on a missing attribute; `a.get_text(strip=True)` is
modelled as stripping the text. -/
def fetch_heroes (page : Except PyError (List Anchor)) : Except PyError (List Hero) :=
  match page with
  | .error e => .error e
  | .ok anchors =>
    mapE (fun a =>
      match a.href with
      | none => .error .keyError
      | some h => .ok (⟨pyStrip a.text, urljoin BASE h, none⟩ : Hero)) anchors

/-- Embedding of `get_heroes` (src/scraper.py lines 113-121), threading
the cache directory state and counting network fetch attempts.  On a
truthy cache hit it deserializes; otherwise it fetches, writes the
serialized list to the cache, and returns it. -/
def get_heroes (ttl now : Int) (store : Store) (page : Except PyError (List Anchor)) :
    Except PyError (List Hero) × Store × Nat :=
  match cacheGet ttl now (store (sanitize_key "heroes")) with
  | .error e => (.error e, store, 0)
  | .ok cached =>
    if pyTruthy cached then
      match decodeHeroes cached with
      | .error e => (.error e, store, 0)
      | .ok hs => (.ok hs, store, 0)
    else
      match fetch_heroes page with
      | .error e => (.error e, store, 1)
      | .ok hs =>
        (.ok hs,
         storeSet store (sanitize_key "heroes")
           (cacheSet now (.arr (hs.map heroToJson))),
         1)

/-! ### extract_skin_id -/

/-- One `<tr>` of a character table: the stripped texts of its `<th>`
and `<td>` cells, in document order. -/
structure TableRow where
  thTexts : List String
  tdTexts : List String

/-- One table matching the four rarity/chronology table classes. -/
structure CTable where
  rows : List TableRow

/-- Scan of a single row by `extract_skin_id`: if some header cell's
text contains "ID NO." or "ID_NO." (the `th_text == "ID NO."` disjunct
in the source is subsumed by the containment test), return the first
data cell whose text is purely numeric with at least 6 digits. -/
def rowId (row : TableRow) : Option String :=
  if row.thTexts.any (fun t =>
      pyContains "ID NO." t || pyContains "ID_NO." t || t == "ID NO.") then
    row.tdTexts.find? (fun t => pyIsDigitStr t && decide (6 ≤ t.length))
  else
    none

/-- Embedding of `extract_skin_id` (src/scraper.py lines 124-149): first
qualifying data cell over all rows of all matched tables, in order; a
row whose header matches but whose data cells do not qualify does not
stop the scan. -/
def extract_skin_id (tables : List CTable) : Option String :=
  (tables.map (fun t => t.rows)).flatten.findSome? rowId

/-! ### fetch_hero_skins / get_hero_skins -/

/-- One candidate anchor inside a `.charcat-wrapper` (selector
`a[href^='/wiki/']`): its title attribute (`""` when absent), its raw
href (`""` when absent), and the outcome of fetching its page —
an exception, or the character tables found on it. -/
structure Candidate where
  title : String
  href : String
  page : Except PyError (List CTable)

/-- Embedding of the candidate loop of `fetch_hero_skins`
(src/scraper.py lines 160-196) over the concatenation of all tab
contents' anchors, returning the accepted skins in order together with
the number of skin-page fetches attempted.  Per candidate, in source
order: skip (without fetching) when the stripped title or the href is
empty; resolve the URL and attempt the skin-page fetch (a raised fetch
is caught and treated as `skin_id = None`); drop candidates whose name
contains "(battlepass)" case-insensitively or "Twitch" case-sensitively;
drop candidates with no extracted id; strip a "(<hero.name>)"
parenthetical; append the skin. -/
def processCandidates (hero : Hero) : List Candidate → List HeroSkin × Nat
  | [] => ([], 0)
  | c :: rest =>
    let name := pyStrip c.title
    if name.data.isEmpty || c.href.data.isEmpty then
      processCandidates hero rest
    else
      let href := urljoin BASE c.href
      -- the fetch is attempted here, before any filtering
      let sid := match c.page with
        | .error _ => none
        | .ok tables => extract_skin_id tables
      let r := processCandidates hero rest
      if pyContains "(battlepass)" (pyLower name) || pyContains "Twitch" name then
        (r.1, r.2 + 1)
      else
        match sid with
        | none => (r.1, r.2 + 1)
        | some sid =>
          let sname :=
            if pyContains ("(" ++ hero.name ++ ")") name then
              pyStrip (pyRemoveAll name ("(" ++ hero.name ++ ")"))
            else name
          ((⟨hero, sname, href, some sid⟩ : HeroSkin) :: r.1, r.2 + 1)

/-- Python `hero.id or default`: `or` tests truthiness, so both `None`
and the empty string are replaced by the default. -/
def pyOrStr (o : Option String) (dflt : String) : Option String :=
  match o with
  | none => some dflt
  | some s => if s.data.isEmpty then some dflt else some s

/-- The tail of `fetch_hero_skins` after the candidate loop, given the
surviving skins and the loop's fetch count (src/scraper.py lines
198-209): append the synthesized default skin — `skins[0]` raises
`IndexError` on an empty list (and `skins[0].id[:4]` would raise
`TypeError` were the id ever `None`, an unreachable branch since only
candidates with an extracted id are appended) — then backfill `hero.id`
in place.  Because every appended skin's `base_hero` aliases the
mutated `hero` object, the embedding applies the backfilled hero to
every returned skin.  The count also pays the one fetch of the hero
page itself. -/
def synthOrFail (hero : Hero) (skins : List HeroSkin) (n : Nat) :
    Except PyError (List HeroSkin × Hero) × Nat :=
  match skins with
  | [] => (.error .indexError, 1 + n)
  | s0 :: rest =>
    match s0.id with
    | none => (.error .typeError, 1 + n)
    | some sid =>
      let did := strTake 4 sid ++ "001"
      let hero2 : Hero := { hero with id := pyOrStr hero.id did }
      (.ok
        (((s0 :: rest) ++
           [(⟨hero, hero.name ++ " (Default)", hero.url, some did⟩ : HeroSkin)]).map
             (fun s => { s with base_hero := hero2 }),
         hero2),
       1 + n)

/-- Embedding of `fetch_hero_skins` (src/scraper.py lines 152-209).
Inputs: the hero and the outcome of `get_soup(hero.url)` — an exception
or the per-tab candidate anchors.  Output: the Python result (or the
exception the function raises) paired with the number of `get_soup`
calls attempted: the candidate loop (`processCandidates`) followed by
the default-skin synthesis and hero-id backfill (`synthOrFail`). -/
def fetch_hero_skins (hero : Hero) (page : Except PyError (List (List Candidate))) :
    Except PyError (List HeroSkin × Hero) × Nat :=
  match page with
  | .error e => (.error e, 1)
  | .ok tabs =>
    match processCandidates hero tabs.flatten with
    | (skins, n) => synthOrFail hero skins n

theorem fetch_hero_skins_eq (hero : Hero) (tabs : List (List Candidate)) :
    fetch_hero_skins hero (.ok tabs) =
      synthOrFail hero (processCandidates hero tabs.flatten).1
        (processCandidates hero tabs.flatten).2 :=
  rfl

theorem synthOrFail_count (hero : Hero) (s : List HeroSkin) (m : Nat) :
    (synthOrFail hero s m).2 = 1 + m := by
  rcases s with _ | ⟨s0, rest⟩
  · rfl
  · rcases hid : s0.id with _ | sid <;> simp [synthOrFail, hid]

theorem synthOrFail_fst_count_irrel (hero : Hero) (s : List HeroSkin) (m k : Nat) :
    (synthOrFail hero s m).1 = (synthOrFail hero s k).1 := by
  rcases s with _ | ⟨s0, rest⟩
  · rfl
  · rcases hid : s0.id with _ | sid <;> simp [synthOrFail, hid]

/-- Serialization of one skin as written by `get_hero_skins`
(src/scraper.py lines 229-241), in source key order. -/
def skinToRecord (skin : HeroSkin) : Json :=
  .obj [("name", .str skin.base_hero.name),
        ("id", jsonOfOptStr skin.base_hero.id),
        ("url", .str skin.url),
        ("skinid", jsonOfOptStr skin.id),
        ("skin_name", .str skin.name)]

/-- Model of the cache-hit reconstruction of one skin
(src/scraper.py lines 218-226): `item["skin_name"]`, `item["url"]`,
`item["skinid"]` raise `KeyError` when absent and `TypeError` when the
item is not a mapping; the hero attached is always the caller-supplied
one.  Non-string name/url values (never produced by this code) are
mapped to a model error. -/
def skinFromItem (hero : Hero) : Json → Except PyError HeroSkin
  | .obj fields =>
    match objGet? fields "skin_name", objGet? fields "url", objGet? fields "skinid" with
    | some (.str sn), some (.str u), some (.str sid) => .ok ⟨hero, sn, u, some sid⟩
    | some (.str sn), some (.str u), some .null => .ok ⟨hero, sn, u, none⟩
    | none, _, _ => .error .keyError
    | _, none, _ => .error .keyError
    | _, _, none => .error .keyError
    | _, _, _ => .error (.other "non-string field")
  | _ => .error .typeError

/-- Model of the cache-hit list comprehension of `get_hero_skins`. -/
def reconstructSkins (hero : Hero) : Json → Except PyError (List HeroSkin)
  | .arr items => mapE (skinFromItem hero) items
  | _ => .error .typeError

/-- Embedding of `get_hero_skins` (src/scraper.py lines 212-242),
threading the cache directory state and the fetch count.  On a truthy
cache hit it reconstructs the skins for the caller-supplied hero and
performs no fetch and no write; otherwise it runs `fetch_hero_skins`
and, only on success, writes the serialized skins under the hero's
key. -/
def get_hero_skins (ttl now : Int) (store : Store) (hero : Hero)
    (page : Except PyError (List (List Candidate))) :
    Except PyError (List HeroSkin × Hero) × Store × Nat :=
  let key := sanitize_key ("skins_" ++ hero.name)
  match cacheGet ttl now (store key) with
  | .error e => (.error e, store, 0)
  | .ok cached =>
    if pyTruthy cached then
      match reconstructSkins hero cached with
      | .error e => (.error e, store, 0)
      | .ok skins => (.ok (skins, hero), store, 0)
    else
      match fetch_hero_skins hero page with
      | (.error e, n) => (.error e, store, n)
      | (.ok (skins, hero2), n) =>
        (.ok (skins, hero2),
         storeSet store key (cacheSet now (.arr (skins.map skinToRecord))),
         n)

/-! ### Catalog reader and API endpoints (src/main.py) -/

/-- Processing of one `skins_*.json` file by `load_all_skins`
(src/main.py lines 28-35): an unparsable file is skipped
(`JSONDecodeError` caught); on parsed JSON, `data.get("payload", [])`
raises `AttributeError` for non-object JSON (not caught — the except
clause covers only `JSONDecodeError` and `KeyError`), and
`all_skins.extend(payload)` iterates the payload: a list contributes its
items, a string its one-character strings, a dict its keys, and any
non-iterable payload raises `TypeError`. -/
def loadFile : FileState → Except PyError (List Json)
  | .missing => .ok []
  | .unparsable => .ok []
  | .parsed (.obj fields) =>
    match objGetD fields "payload" (.arr []) with
    | .arr xs => .ok xs
    | .str s => .ok (s.data.map (fun c => .str ⟨[c]⟩))
    | .obj fs => .ok (fs.map (fun p => .str p.1))
    | _ => .error .typeError
  | .parsed _ => .error .attributeError

/-- Embedding of `load_all_skins` (src/main.py lines 21-37): the
parameter is the list of `skins_*.json` file states in directory
iteration order; payload lists are concatenated in that order.  Note the
function never consults timestamps. -/
def load_all_skins : List FileState → Except PyError (List Json)
  | [] => .ok []
  | f :: rest =>
    match loadFile f with
    | .error e => .error e
    | .ok xs =>
      match load_all_skins rest with
      | .error e => .error e
      | .ok ys => .ok (xs ++ ys)

/-- Linear scan of `get_skin_by_id`'s loop: first record whose
`skin.get("skinid")` equals the integer path parameter under Python
`==`; a non-mapping record raises `AttributeError` at `skin.get`. -/
def findSkinById (skin_id : Int) : List Json → Except PyError (Option Json)
  | [] => .ok none
  | s :: rest =>
    match s with
    | .obj fields =>
      if pyEqInt (objGetD fields "skinid" .null) skin_id then .ok (some s)
      else findSkinById skin_id rest
    | _ => .error .attributeError

/-- Embedding of the `GET /skin/{skin_id}` handler `get_skin_by_id`
(src/main.py lines 168-177).  FastAPI parses the path parameter as an
`int`.  The result `some record` is the 200 response; `none` is the
404 `HTTPException`. -/
def get_skin_by_id (files : List FileState) (skin_id : Int) :
    Except PyError (Option Json) :=
  match load_all_skins files with
  | .error e => .error e
  | .ok skins => findSkinById skin_id skins

/-! ### Refresh orchestrator (src/main.py) -/

/-- Embedding of the process-wide `cache_status` dict. -/
structure CacheStatus where
  is_refreshing : Bool
  last_refresh : Option Int
  progress_current : Nat
  progress_total : Nat
deriving DecidableEq

/-- Responses of the `POST /refresh` handler. -/
inductive TriggerResp where
  | alreadyInProgress (status : CacheStatus)
  | started
deriving DecidableEq

/-- Embedding of `trigger_refresh` (src/main.py lines 123-136): when a
refresh is already in progress it reports the current status and
schedules nothing; otherwise it schedules the background refresh
(second component: whether `background_tasks.add_task` ran). -/
def trigger_refresh (st : CacheStatus) : TriggerResp × Bool :=
  if st.is_refreshing then (.alreadyInProgress st, false)
  else (.started, true)

/-- The external world a refresh cycle runs against: the heroes index
page and, per hero name, the hero's own page with its candidates'
pages. -/
structure Env where
  heroesPage : Except PyError (List Anchor)
  skinPage : String → Except PyError (List (List Candidate))

/-- The per-hero loop of `refresh_cache_background`
(src/main.py lines 58-61): sets `progress.current`, calls
`get_hero_skins`, and — Python having no per-hero handler — lets the
first exception abort the remaining heroes (first component: whether
the loop completed without an exception). -/
def refreshLoop (ttl now : Int) (env : Env) :
    List Hero → Nat → CacheStatus → Store → Nat → Bool × CacheStatus × Store × Nat
  | [], _, st, store, fetches => (true, st, store, fetches)
  | hero :: rest, i, st, store, fetches =>
    let st2 := { st with progress_current := i + 1 }
    match get_hero_skins ttl now store hero (env.skinPage hero.name) with
    | (.error _, store2, n) => (false, st2, store2, fetches + n)
    | (.ok _, store2, n) => refreshLoop ttl now env rest (i + 1) st2 store2 (fetches + n)

/-- Embedding of `refresh_cache_background` (src/main.py lines 40-69).
The guard returns before the `try` block, so an in-progress refresh
leaves everything untouched.  Otherwise: set `is_refreshing`, call
`get_heroes` (the source imports it under the placeholder module name
`your_scraper_file`; the scraper module of this repository is the one
embedded above), set `progress.total`, run the loop; any exception is
caught (`except Exception`), and the `finally` block always resets
`is_refreshing` and the progress counters, while `last_refresh` is set
only on a fully successful cycle.  Result: final status, final cache
directory, number of network fetch attempts. -/
def refresh_cache_background (ttl now : Int) (env : Env) (st : CacheStatus)
    (store : Store) : CacheStatus × Store × Nat :=
  if st.is_refreshing then (st, store, 0)
  else
    let st1 := { st with is_refreshing := true }
    match get_heroes ttl now store env.heroesPage with
    | (.error _, store2, n) =>
      ({ st1 with is_refreshing := false, progress_current := 0, progress_total := 0 },
       store2, n)
    | (.ok heroes, store2, n) =>
      let st2 := { st1 with progress_total := heroes.length }
      match refreshLoop ttl now env heroes 0 st2 store2 n with
      | (ok, st3, store3, n2) =>
        let st4 := if ok then { st3 with last_refresh := some now } else st3
        ({ st4 with is_refreshing := false, progress_current := 0, progress_total := 0 },
         store3, n2)

/-! ### Helper lemmas -/

theorem storeSet_self (s : Store) (k : String) (f : FileState) :
    storeSet s k f k = f := by
  simp [storeSet]

theorem cacheGet_record (ttl now t : Int) (p : Json) :
    cacheGet ttl now (.parsed (.obj [("timestamp", .num t), ("payload", p)])) =
      if ttl ≤ now - t then .ok .null else .ok p := rfl

theorem cacheGet_fresh (ttl now t : Int) (p : Json) (h : now - t < ttl) :
    cacheGet ttl now (.parsed (.obj [("timestamp", .num t), ("payload", p)])) = .ok p := by
  rw [cacheGet_record, if_neg (by omega)]

theorem mapE_hero_round (hs : List Hero) :
    mapE heroFromJson (hs.map heroToJson) = .ok hs := by
  induction hs with
  | nil => rfl
  | cons h rest ih =>
    rcases h with ⟨n, u, i⟩
    cases i <;> simp [heroToJson, heroFromJson, jsonOfOptStr, mapE, ih]

theorem pyOrStr_ne_none (o : Option String) (d : String) : pyOrStr o d ≠ none := by
  cases o with
  | none => simp [pyOrStr]
  | some s =>
    simp only [pyOrStr]
    split <;> simp

/-- A refresh invocation leaves the flag as it found a guard-skipped
call, and otherwise always clears it in the `finally` block. -/
theorem refresh_flag (ttl now : Int) (env : Env) (st : CacheStatus) (store : Store) :
    (refresh_cache_background ttl now env st store).1.is_refreshing = st.is_refreshing := by
  by_cases h : st.is_refreshing = true
  · simp [refresh_cache_background, h]
  · simp only [Bool.not_eq_true] at h
    simp only [refresh_cache_background, h, Bool.false_eq_true, if_false]
    rcases hG : get_heroes ttl now store env.heroesPage with ⟨res, store2, n⟩
    cases res with
    | error e => simp
    | ok heroes =>
      rcases hL : refreshLoop ttl now env heroes 0
          { st with is_refreshing := true, progress_total := heroes.length } store2 n with
        ⟨ok, st3, store3, n2⟩
      simp

/-! ### Claim C1 -/

/-- The Iron Man skin record exactly as `get_hero_skins` serializes it
(string-valued `skinid`). -/
def c1IronManFields : List (String × Json) :=
  [("name", .str "Iron Man"), ("id", .str "1021001"),
   ("url", .str "https://marvelrivals.fandom.com/wiki/Armor_Model_42"),
   ("skinid", .str "1021002"), ("skin_name", .str "Armor Model 42")]

def c1IronManItem : Json := .obj c1IronManFields

/-- A fresh, well-formed `skins_Iron_Man.json` containing that record. -/
def c1Files : List FileState :=
  [.parsed (.obj [("timestamp", .num 999), ("payload", .arr [c1IronManItem])])]

/-- C1: with a cached record whose `skinid` is the numeric string
"1021002", `GET /skin/1021002` is claimed to return that record.  In the
code the FastAPI path parameter is an `int` while every cached `skinid`
is a JSON string, and Python `"1021002" == 1021002` is `False`, so the
aggregation sees the record yet the endpoint returns the 404 branch
(`none`).  This evaluates the handler at exactly that failing input. -/
theorem c1_skin_by_id_returns_404_on_cached_record :
    objGet? c1IronManFields "skinid" = some (.str "1021002") ∧
    load_all_skins c1Files = .ok [c1IronManItem] ∧
    get_skin_by_id c1Files 1021002 = .ok none :=
  ⟨rfl, rfl, rfl⟩

/-! ### Claim C2 -/

/-- C2: `Cache.get` is claimed never to raise for any on-disk state.
But for a file holding valid JSON that is not an object — here the JSON
array `[]` — `data.get("timestamp", 0)` raises `AttributeError`, and
for an object whose timestamp is a string, `time.time() - timestamp`
raises `TypeError`; neither is in the caught `(json.JSONDecodeError,
KeyError)` tuple.  This evaluates `Cache.get` at those failing
inputs. -/
theorem c2_cache_get_raises_on_nonobject_json :
    cacheGet 7200 1000 (.parsed (.arr [])) = .error .attributeError ∧
    cacheGet 7200 1000
      (.parsed (.obj [("timestamp", .str "later"), ("payload", .arr [])])) =
      .error .typeError :=
  ⟨rfl, rfl⟩

/-! ### Claim C5 -/

/-- C5: while `is_refreshing` is true, both the background refresh and
the manual `POST /refresh` trigger return immediately: the status, the
cache directory and the fetch count are untouched (the guard precedes
the `try` block), and the trigger schedules no background task —
the single-flight guard of the sequential model. -/
theorem c5_single_flight_guard (ttl now : Int) (env : Env) (st : CacheStatus)
    (store : Store) (h : st.is_refreshing = true) :
    refresh_cache_background ttl now env st store = (st, store, 0) ∧
    trigger_refresh st = (.alreadyInProgress st, false) := by
  constructor
  · simp [refresh_cache_background, h]
  · simp [trigger_refresh, h]

def c5St : CacheStatus := ⟨true, some 5, 3, 39⟩

def c5Store : Store := fun _ => .missing

def c5Env : Env := ⟨.ok [⟨"Groot", some "/wiki/Groot"⟩], fun _ => .ok []⟩

/-- Witness for C5 at a concrete in-progress status. -/
theorem c5_single_flight_guard_witness :
    refresh_cache_background 7200 1000 c5Env c5St c5Store = (c5St, c5Store, 0) ∧
    trigger_refresh c5St = (.alreadyInProgress c5St, false) :=
  c5_single_flight_guard 7200 1000 c5Env c5St c5Store rfl

/-! ### Claim C9 -/

/-- The character class `[A-Za-z0-9]` named by the spec, by code
point. -/
def specAlnum (c : Char) : Bool :=
  let n := c.toNat
  (65 ≤ n && n ≤ 90) || (97 ≤ n && n ≤ 122) || (48 ≤ n && n ≤ 57)

/-- C9 counterexample: the claim says every character outside
`[A-Za-z0-9]` becomes `_`.  The code uses Python `str.isalnum`, which is
Unicode-aware: the key `"é"` is outside `[A-Za-z0-9]` yet its sanitized
form keeps the `é` instead of replacing it with `_`. -/
theorem c9_unicode_alnum_is_kept :
    specAlnum 'é' = false ∧ sanitize_key "é" = "é" ∧ sanitize_key "é" ≠ "_" := by
  refine ⟨rfl, rfl, ?_⟩
  decide

theorem pyIsAlnum_ascii (c : Char) (h : c.toNat < 128) :
    pyIsAlnum c = specAlnum c := by
  simp only [pyIsAlnum, specAlnum]
  rw [Bool.eq_iff_iff]
  simp only [Bool.or_eq_true, Bool.and_eq_true, decide_eq_true_eq, beq_iff_eq,
    bne_iff_ne, ne_eq]
  omega

theorem pyIsAlnum_underscore : pyIsAlnum '_' = false := by decide

/-- C9 as amended: the kept-characters criterion is Python `isalnum`
(Unicode-aware), which agrees with the claimed `[A-Za-z0-9]` on every
all-ASCII key; and sanitizing an already-sanitized key is a no-op for
every key. -/
theorem c9_sanitize_ascii_and_idempotent :
    (∀ key : String, (∀ c ∈ key.data, c.toNat < 128) →
      sanitize_key key = ⟨key.data.map (fun c => if specAlnum c then c else '_')⟩) ∧
    (∀ key : String, sanitize_key (sanitize_key key) = sanitize_key key) := by
  constructor
  · intro key hascii
    apply congrArg String.mk
    apply List.map_congr_left
    intro c hc
    rw [pyIsAlnum_ascii c (hascii c hc)]
  · intro key
    apply congrArg String.mk
    show List.map _ (List.map _ key.data) = _
    rw [List.map_map]
    apply List.map_congr_left
    intro c _
    by_cases hp : pyIsAlnum c = true
    · simp [Function.comp, hp]
    · simp only [Bool.not_eq_true] at hp
      simp [Function.comp, hp, pyIsAlnum_underscore]

/-- Witness for C9's amended claim at a concrete key. -/
theorem c9_sanitize_witness :
    sanitize_key "skins_Iron Man" =
      ⟨("skins_Iron Man").data.map (fun c => if specAlnum c then c else '_')⟩ ∧
    sanitize_key (sanitize_key "skins_Iron Man") = sanitize_key "skins_Iron Man" :=
  ⟨c9_sanitize_ascii_and_idempotent.1 "skins_Iron Man" (by decide),
   c9_sanitize_ascii_and_idempotent.2 "skins_Iron Man"⟩

/-! ### Claim C8 -/

/-- C8: writing a non-empty Hero list through `Cache.set("heroes", ·)`
and reading it back through `Cache.get("heroes")` within the TTL
returns exactly the serialized payload, and deserializing each item with
`Hero(**item)` reproduces the very same list — same (name, url) pairs in
the same order, with a null id staying null. -/
theorem c8_heroes_roundtrip (ttl t t2 : Int) (store : Store) (hs : List Hero)
    (hne : hs ≠ []) (hfresh : t2 - t < ttl) :
    cacheGet ttl t2
      (storeSet store (sanitize_key "heroes")
        (cacheSet t (.arr (hs.map heroToJson))) (sanitize_key "heroes")) =
      .ok (.arr (hs.map heroToJson)) ∧
    decodeHeroes (.arr (hs.map heroToJson)) = .ok hs := by
  constructor
  · rw [storeSet_self]
    exact cacheGet_fresh ttl t2 t _ hfresh
  · exact mapE_hero_round hs

def c8Heroes : List Hero :=
  [⟨"Groot", "https://marvelrivals.fandom.com/wiki/Groot", none⟩,
   ⟨"Iron Man", "https://marvelrivals.fandom.com/wiki/Iron_Man", some "1021001"⟩]

def c8Store : Store := fun _ => .missing

/-- Witness for C8 at a concrete two-hero list (one null id). -/
theorem c8_heroes_roundtrip_witness :
    cacheGet 7200 1100
      (storeSet c8Store (sanitize_key "heroes")
        (cacheSet 1000 (.arr (c8Heroes.map heroToJson))) (sanitize_key "heroes")) =
      .ok (.arr (c8Heroes.map heroToJson)) ∧
    decodeHeroes (.arr (c8Heroes.map heroToJson)) = .ok c8Heroes :=
  c8_heroes_roundtrip 7200 1000 1100 c8Store c8Heroes (by decide) (by decide)

/-! ### Claim C10 -/

/-- C10: a fresh, well-formed cache record whose payload is the empty
list is treated exactly like a miss: both `get_heroes` and
`get_hero_skins` fall through the falsy `if cached:` test, return the
result of a full network refetch, and pay its fetch cost (at least one
fetch) instead of returning the cached empty list. -/
theorem c10_empty_payload_is_miss :
    (∀ (ttl now t : Int) (store : Store) (page : Except PyError (List Anchor)),
      now - t < ttl →
      store (sanitize_key "heroes") =
        .parsed (.obj [("timestamp", .num t), ("payload", .arr [])]) →
      (get_heroes ttl now store page).1 = fetch_heroes page ∧
      (get_heroes ttl now store page).2.2 = 1) ∧
    (∀ (ttl now t : Int) (store : Store) (hero : Hero)
        (page : Except PyError (List (List Candidate))),
      now - t < ttl →
      store (sanitize_key ("skins_" ++ hero.name)) =
        .parsed (.obj [("timestamp", .num t), ("payload", .arr [])]) →
      (get_hero_skins ttl now store hero page).1 = (fetch_hero_skins hero page).1 ∧
      (get_hero_skins ttl now store hero page).2.2 = (fetch_hero_skins hero page).2 ∧
      1 ≤ (fetch_hero_skins hero page).2) := by
  constructor
  · intro ttl now t store page hfresh hstore
    simp only [get_heroes, hstore, cacheGet_fresh ttl now t _ hfresh]
    have htr : pyTruthy (.arr []) = false := rfl
    rw [htr]
    simp only [Bool.false_eq_true, if_false]
    rcases hF : fetch_heroes page with e | hs2 <;> simp
  · intro ttl now t store hero page hfresh hstore
    have hcount : 1 ≤ (fetch_hero_skins hero page).2 := by
      rcases page with e | tabs
      · simp [fetch_hero_skins]
      · rw [fetch_hero_skins_eq, synthOrFail_count]
        omega
    refine ⟨?_, ?_, hcount⟩ <;>
    · simp only [get_hero_skins, hstore, cacheGet_fresh ttl now t _ hfresh]
      have htr : pyTruthy (.arr []) = false := rfl
      rw [htr]
      simp only [Bool.false_eq_true, if_false]
      rcases hF : fetch_hero_skins hero page with ⟨res, n⟩
      rcases res with e | ⟨skins, hero2⟩ <;> simp

def c10HeroesStore : Store := fun k =>
  if k == sanitize_key "heroes" then
    .parsed (.obj [("timestamp", .num 950), ("payload", .arr [])])
  else .missing

def c10Page : Except PyError (List Anchor) := .ok [⟨"Groot", some "/wiki/Groot"⟩]

def c10Hero : Hero := ⟨"Groot", "https://marvelrivals.fandom.com/wiki/Groot", none⟩

def c10SkinsStore : Store := fun k =>
  if k == sanitize_key ("skins_" ++ c10Hero.name) then
    .parsed (.obj [("timestamp", .num 950), ("payload", .arr [])])
  else .missing

def c10SkinPage : Except PyError (List (List Candidate)) :=
  .ok [[⟨"Celestial", "/wiki/Celestial", .ok [⟨[⟨["ID NO."], ["1011002"]⟩]⟩]⟩]]

/-- Witness for C10: concrete fresh empty-list records for both keys. -/
theorem c10_empty_payload_is_miss_witness :
    ((get_heroes 7200 1000 c10HeroesStore c10Page).1 = fetch_heroes c10Page ∧
     (get_heroes 7200 1000 c10HeroesStore c10Page).2.2 = 1) ∧
    ((get_hero_skins 7200 1000 c10SkinsStore c10Hero c10SkinPage).1 =
       (fetch_hero_skins c10Hero c10SkinPage).1 ∧
     (get_hero_skins 7200 1000 c10SkinsStore c10Hero c10SkinPage).2.2 =
       (fetch_hero_skins c10Hero c10SkinPage).2 ∧
     1 ≤ (fetch_hero_skins c10Hero c10SkinPage).2) :=
  ⟨c10_empty_payload_is_miss.1 7200 1000 950 c10HeroesStore c10Page (by decide) rfl,
   c10_empty_payload_is_miss.2 7200 1000 950 c10SkinsStore c10Hero c10SkinPage
     (by decide) rfl⟩

/-! ### Claim C3 -/

/-- C3: when the candidate loop dropped every real skin (exclusion
filter or failed ID extraction), `skins[0]` in the default-skin append
raises `IndexError`: `fetch_hero_skins` is a hard error,
`get_hero_skins` propagates it without writing any record under the
hero's skins key (the cache directory is returned untouched), and a
refresh cycle — whose loop catches every exception — still ends with
`is_refreshing` reset to false for any environment, so the orchestrator
survives. -/
theorem c3_empty_candidates_hard_error (ttl now : Int) (store : Store) (hero : Hero)
    (tabs : List (List Candidate)) (c : Json)
    (hmiss : cacheGet ttl now (store (sanitize_key ("skins_" ++ hero.name))) = .ok c)
    (hfalse : pyTruthy c = false)
    (hempty : (processCandidates hero tabs.flatten).1 = []) :
    (fetch_hero_skins hero (.ok tabs)).1 = .error .indexError ∧
    get_hero_skins ttl now store hero (.ok tabs) =
      (.error .indexError, store, (fetch_hero_skins hero (.ok tabs)).2) ∧
    (∀ (env : Env) (st : CacheStatus) (store2 : Store),
      st.is_refreshing = false →
      ((refresh_cache_background ttl now env st store2).1).is_refreshing = false) := by
  have hfetch : fetch_hero_skins hero (.ok tabs) =
      (.error .indexError, 1 + (processCandidates hero tabs.flatten).2) := by
    rw [fetch_hero_skins_eq, hempty]
    rfl
  refine ⟨by rw [hfetch], ?_, ?_⟩
  · simp only [get_hero_skins, hmiss, hfalse, Bool.false_eq_true, if_false, hfetch]
  · intro env st store2 hst
    rw [refresh_flag, hst]

def c3Hero : Hero := ⟨"Groot", "https://marvelrivals.fandom.com/wiki/Groot", none⟩

/-- A hero page whose only candidates are a battlepass skin and a Twitch
promo skin (one of them even with an extractable ID): all real
candidates are dropped. -/
def c3Tabs : List (List Candidate) :=
  [[⟨"Winter Soldier (Battlepass)", "/wiki/WS", .ok [⟨[⟨["ID NO."], ["1011005"]⟩]⟩]⟩,
    ⟨"Twitch Drop Alpha", "/wiki/TW", .ok []⟩]]

def c3Store : Store := fun _ => .missing

def c3Env : Env := ⟨.ok [⟨"Groot", some "/wiki/Groot"⟩], fun _ => .ok c3Tabs⟩

def c3St : CacheStatus := ⟨false, none, 0, 0⟩

/-- Witness for C3 at a concrete all-dropped candidate list. -/
theorem c3_empty_candidates_hard_error_witness :
    (fetch_hero_skins c3Hero (.ok c3Tabs)).1 = .error .indexError ∧
    get_hero_skins 7200 1000 c3Store c3Hero (.ok c3Tabs) =
      (.error .indexError, c3Store, (fetch_hero_skins c3Hero (.ok c3Tabs)).2) ∧
    ((refresh_cache_background 7200 1000 c3Env c3St c3Store).1).is_refreshing = false := by
  have h := c3_empty_candidates_hard_error 7200 1000 c3Store c3Hero c3Tabs .null
    rfl rfl (by decide)
  exact ⟨h.1, h.2.1, h.2.2 c3Env c3St c3Store rfl⟩

/-! ### Claim C4 -/

/-- Forward evaluation of `fetch_hero_skins` when the candidate loop
survives with a first skin: the default skin is appended last and the
hero id backfilled, with every skin's `base_hero` aliasing the mutated
hero. -/
theorem fetch_hero_skins_cons (hero : Hero) (tabs : List (List Candidate))
    (s0 : HeroSkin) (rest : List HeroSkin) (n2 : Nat) (sid : String)
    (hpc : processCandidates hero tabs.flatten = (s0 :: rest, n2))
    (hid : s0.id = some sid) :
    fetch_hero_skins hero (.ok tabs) =
      (.ok
        (((s0 :: rest) ++
            [(⟨hero, hero.name ++ " (Default)", hero.url,
              some (strTake 4 sid ++ "001")⟩ : HeroSkin)]).map
            (fun s : HeroSkin => { s with base_hero :=
              { hero with id := pyOrStr hero.id (strTake 4 sid ++ "001") } }),
         { hero with id := pyOrStr hero.id (strTake 4 sid ++ "001") }),
       1 + n2) := by
  rw [fetch_hero_skins_eq, hpc]
  simp [synthOrFail, hid]

theorem fetch_hero_skins_ok_id (hero : Hero) (page : Except PyError (List (List Candidate)))
    (skins : List HeroSkin) (hero2 : Hero) (n : Nat)
    (h : fetch_hero_skins hero page = (.ok (skins, hero2), n)) : hero2.id ≠ none := by
  rcases page with e | tabs
  · simp [fetch_hero_skins] at h
  · rcases hpc : processCandidates hero tabs.flatten with ⟨skins2, n2⟩
    rcases skins2 with _ | ⟨s0, rest⟩
    · have hfe : fetch_hero_skins hero (.ok tabs) = (.error .indexError, 1 + n2) := by
        rw [fetch_hero_skins_eq, hpc]
        rfl
      rw [hfe] at h
      simp at h
    · rcases hid : s0.id with _ | sid
      · have hfe : fetch_hero_skins hero (.ok tabs) = (.error .typeError, 1 + n2) := by
          rw [fetch_hero_skins_eq, hpc]
          simp [synthOrFail, hid]
        rw [hfe] at h
        simp at h
      · rw [fetch_hero_skins_cons hero tabs s0 rest n2 sid hpc hid] at h
        simp only [Prod.mk.injEq, Except.ok.injEq] at h
        obtain ⟨⟨-, hh⟩, -⟩ := h
        rw [← hh]
        simpa using pyOrStr_ne_none hero.id (strTake 4 sid ++ "001")

def c4Hero : Hero := ⟨"Groot", "https://marvelrivals.fandom.com/wiki/Groot", none⟩

def c4Item : Json :=
  .obj [("name", .str "Groot"), ("id", .str "1011001"),
        ("url", .str "https://marvelrivals.fandom.com/wiki/Celestial"),
        ("skinid", .str "1011002"), ("skin_name", .str "Celestial")]

/-- A fresh skins record for Groot sits in the cache. -/
def c4Store : Store := fun k =>
  if k == sanitize_key "skins_Groot" then
    .parsed (.obj [("timestamp", .num 900), ("payload", .arr [c4Item])])
  else .missing

/-- C4 counterexample: the claim asserts a non-null hero id after a
successful `get_hero_skins` on both paths.  On the cache-hit path the
function never touches `hero.id`: a hero entering with a null id leaves
the call — which succeeds — still with a null id. -/
theorem c4_cache_hit_leaves_id_null :
    (get_hero_skins 7200 1000 c4Store c4Hero (.ok [])).1 =
      .ok ([⟨c4Hero, "Celestial", "https://marvelrivals.fandom.com/wiki/Celestial",
             some "1011002"⟩], c4Hero) ∧
    c4Hero.id = none :=
  ⟨rfl, rfl⟩

/-- C4 as amended: after a successful `get_hero_skins`, the returned
hero has a non-null id on the cache-miss path (backfilled by
`fetch_hero_skins`), while on the cache-hit path the hero is returned
exactly as supplied, so its id may remain null. -/
theorem c4_hero_id_backfilled_only_on_miss :
    (∀ (ttl now : Int) (store : Store) (hero : Hero)
        (page : Except PyError (List (List Candidate))) (c : Json)
        (skins : List HeroSkin) (hero2 : Hero),
      cacheGet ttl now (store (sanitize_key ("skins_" ++ hero.name))) = .ok c →
      pyTruthy c = false →
      (get_hero_skins ttl now store hero page).1 = .ok (skins, hero2) →
      hero2.id ≠ none) ∧
    (∀ (ttl now : Int) (store : Store) (hero : Hero)
        (page : Except PyError (List (List Candidate))) (c : Json)
        (skins : List HeroSkin) (hero2 : Hero),
      cacheGet ttl now (store (sanitize_key ("skins_" ++ hero.name))) = .ok c →
      pyTruthy c = true →
      (get_hero_skins ttl now store hero page).1 = .ok (skins, hero2) →
      hero2 = hero) := by
  constructor
  · intro ttl now store hero page c skins hero2 hmiss hfalse hok
    simp only [get_hero_skins, hmiss, hfalse, Bool.false_eq_true, if_false] at hok
    rcases hf : fetch_hero_skins hero page with ⟨res, n⟩
    rw [hf] at hok
    rcases res with e | ⟨skins2, hero3⟩
    · simp at hok
    · simp only [Except.ok.injEq, Prod.mk.injEq] at hok
      obtain ⟨-, hh⟩ := hok
      rw [← hh]
      exact fetch_hero_skins_ok_id hero page skins2 hero3 n hf
  · intro ttl now store hero page c skins hero2 hhit htrue hok
    simp only [get_hero_skins, hhit, htrue, if_true] at hok
    rcases hr : reconstructSkins hero c with e | skins2
    · rw [hr] at hok
      simp at hok
    · rw [hr] at hok
      simp only [Except.ok.injEq, Prod.mk.injEq] at hok
      exact hok.2.symm

def c4HeroDone : Hero := ⟨"Groot", "https://marvelrivals.fandom.com/wiki/Groot", some "1011001"⟩

def c4MissStore : Store := fun _ => .missing

def c4Tabs : List (List Candidate) :=
  [[⟨"Celestial", "/wiki/Celestial", .ok [⟨[⟨["ID NO."], ["1011002"]⟩]⟩]⟩]]

def c4MissSkins : List HeroSkin :=
  [⟨c4HeroDone, "Celestial", "https://marvelrivals.fandom.com/wiki/Celestial", some "1011002"⟩,
   ⟨c4HeroDone, "Groot (Default)", "https://marvelrivals.fandom.com/wiki/Groot", some "1011001"⟩]

/-- Witness for C4's amended claim: a concrete miss-path call yields a
backfilled non-null id, and a concrete hit-path call returns the
supplied hero unchanged. -/
theorem c4_hero_id_backfilled_only_on_miss_witness :
    (get_hero_skins 7200 1000 c4MissStore c4Hero (.ok c4Tabs)).1 =
      .ok (c4MissSkins, c4HeroDone) ∧
    c4HeroDone.id ≠ none ∧
    c4Hero = c4Hero := by
  refine ⟨rfl, ?_, ?_⟩
  · exact c4_hero_id_backfilled_only_on_miss.1 7200 1000 c4MissStore c4Hero (.ok c4Tabs)
      .null c4MissSkins c4HeroDone rfl rfl rfl
  · exact c4_hero_id_backfilled_only_on_miss.2 7200 1000 c4Store c4Hero (.ok [])
      (.arr [c4Item])
      [⟨c4Hero, "Celestial", "https://marvelrivals.fandom.com/wiki/Celestial", some "1011002"⟩]
      c4Hero rfl rfl rfl

/-! ### Claim C6 -/

/-- One unfolding step of the candidate loop, with the let-bindings of
the source inlined. -/
theorem processCandidates_cons (hero : Hero) (c : Candidate) (rest : List Candidate) :
    processCandidates hero (c :: rest) =
      if ((pyStrip c.title).data.isEmpty || c.href.data.isEmpty) then
        processCandidates hero rest
      else if (pyContains "(battlepass)" (pyLower (pyStrip c.title)) ||
          pyContains "Twitch" (pyStrip c.title)) then
        ((processCandidates hero rest).1, (processCandidates hero rest).2 + 1)
      else
        match (match c.page with
          | .error _ => none
          | .ok tables => extract_skin_id tables) with
        | none => ((processCandidates hero rest).1, (processCandidates hero rest).2 + 1)
        | some sid =>
          ((⟨hero,
             (if pyContains ("(" ++ hero.name ++ ")") (pyStrip c.title) then
                pyStrip (pyRemoveAll (pyStrip c.title) ("(" ++ hero.name ++ ")"))
              else pyStrip c.title),
             urljoin BASE c.href, some sid⟩ : HeroSkin) :: (processCandidates hero rest).1,
           (processCandidates hero rest).2 + 1) :=
  rfl

/-- The candidate loop treats candidates independently: skins
concatenate and fetch counts add across a split of the candidate
list. -/
theorem processCandidates_append (hero : Hero) (l1 l2 : List Candidate) :
    processCandidates hero (l1 ++ l2) =
      ((processCandidates hero l1).1 ++ (processCandidates hero l2).1,
       (processCandidates hero l1).2 + (processCandidates hero l2).2) := by
  induction l1 with
  | nil => simp [processCandidates]
  | cons c l1 ih =>
    rw [List.cons_append, processCandidates_cons, processCandidates_cons hero c l1, ih]
    by_cases hg : ((pyStrip c.title).data.isEmpty || c.href.data.isEmpty) = true
    · simp [hg]
    · simp only [Bool.not_eq_true] at hg
      simp only [hg, Bool.false_eq_true, if_false]
      by_cases hx : (pyContains "(battlepass)" (pyLower (pyStrip c.title)) ||
          pyContains "Twitch" (pyStrip c.title)) = true
      · simp only [hx, if_true]
        apply Prod.ext
        · rfl
        · dsimp only
          omega
      · simp only [Bool.not_eq_true] at hx
        simp only [hx, Bool.false_eq_true, if_false]
        rcases hsid : (match c.page with
          | .error _ => none
          | .ok tables => extract_skin_id tables) with _ | sid
        · simp only [hsid]
          apply Prod.ext
          · rfl
          · dsimp only
            omega
        · simp only [hsid]
          apply Prod.ext
          · dsimp only
            rw [List.cons_append]
          · dsimp only
            omega

/-- A candidate with a nonempty href whose name matches the exclusion
filter contributes nothing to the skins and one fetch to the count. -/
theorem processCandidates_excluded (hero : Hero) (c : Candidate)
    (hhref : c.href.data.isEmpty = false)
    (hex : (pyContains "(battlepass)" (pyLower (pyStrip c.title)) ||
            pyContains "Twitch" (pyStrip c.title)) = true) :
    processCandidates hero [c] = ([], 1) := by
  have hname : (pyStrip c.title).data.isEmpty = false := by
    rcases hd : (pyStrip c.title).data with _ | ⟨a, l⟩
    · exfalso
      have e1 : pyLower (pyStrip c.title) = ⟨[]⟩ := by
        unfold pyLower
        rw [hd]
        rfl
      have h1 : pyContains "(battlepass)" (pyLower (pyStrip c.title)) = false := by
        rw [e1]
        decide
      have h2 : pyContains "Twitch" (pyStrip c.title) = false := by
        unfold pyContains
        rw [hd]
        decide
      rw [h1, h2] at hex
      simp at hex
    · rfl
  rw [processCandidates_cons]
  simp only [hname, hhref, Bool.or_self, Bool.false_eq_true, if_false, hex, if_true]
  rfl

/-- If one hero page yields the same surviving skins as another but one
more attempted fetch, `fetch_hero_skins` returns the same result on both
with the fetch count shifted by one. -/
theorem fetch_result_shift (hero : Hero) (tabs1 tabs2 : List (List Candidate))
    (h1 : (processCandidates hero tabs1.flatten).1 =
      (processCandidates hero tabs2.flatten).1)
    (h2 : (processCandidates hero tabs1.flatten).2 =
      (processCandidates hero tabs2.flatten).2 + 1) :
    (fetch_hero_skins hero (.ok tabs1)).1 = (fetch_hero_skins hero (.ok tabs2)).1 ∧
    (fetch_hero_skins hero (.ok tabs1)).2 = (fetch_hero_skins hero (.ok tabs2)).2 + 1 := by
  rw [fetch_hero_skins_eq, fetch_hero_skins_eq, h1]
  rw [synthOrFail_count, synthOrFail_count, h2]
  exact ⟨synthOrFail_fst_count_irrel hero _ _ _, by omega⟩

/-- C6: a candidate whose (stripped) name contains "(battlepass)" in any
letter case or the exact substring "Twitch" is dropped wherever it sits
in the candidate list: the surviving skins of the loop — and the whole
result of `fetch_hero_skins`, hence the record later cached from it —
are exactly those of the list without it, no matter what its own page
fetch returned (no hypothesis on `c.page`), while the fetch count still
pays one fetch for it: the exclusion test runs only after the skin-page
fetch was attempted. -/
theorem c6_exclusion_filter (hero : Hero) (pre post : List Candidate) (c : Candidate)
    (hhref : c.href.data.isEmpty = false)
    (hex : (pyContains "(battlepass)" (pyLower (pyStrip c.title)) ||
            pyContains "Twitch" (pyStrip c.title)) = true) :
    (processCandidates hero (pre ++ c :: post)).1 =
      (processCandidates hero (pre ++ post)).1 ∧
    (processCandidates hero (pre ++ c :: post)).2 =
      (processCandidates hero (pre ++ post)).2 + 1 ∧
    (fetch_hero_skins hero (.ok [pre ++ c :: post])).1 =
      (fetch_hero_skins hero (.ok [pre ++ post])).1 ∧
    (fetch_hero_skins hero (.ok [pre ++ c :: post])).2 =
      (fetch_hero_skins hero (.ok [pre ++ post])).2 + 1 := by
  have hc : processCandidates hero [c] = ([], 1) :=
    processCandidates_excluded hero c hhref hex
  have e1 : pre ++ c :: post = pre ++ ([c] ++ post) := rfl
  have h1 : (processCandidates hero (pre ++ c :: post)).1 =
      (processCandidates hero (pre ++ post)).1 := by
    rw [e1, processCandidates_append hero pre ([c] ++ post),
        processCandidates_append hero [c] post, hc,
        processCandidates_append hero pre post]
    simp
  have h2 : (processCandidates hero (pre ++ c :: post)).2 =
      (processCandidates hero (pre ++ post)).2 + 1 := by
    rw [e1, processCandidates_append hero pre ([c] ++ post),
        processCandidates_append hero [c] post, hc,
        processCandidates_append hero pre post]
    simp
    omega
  have hflat1 : ([pre ++ c :: post] : List (List Candidate)).flatten =
      pre ++ c :: post := by simp
  have hflat2 : ([pre ++ post] : List (List Candidate)).flatten = pre ++ post := by
    simp
  have hshift := fetch_result_shift hero [pre ++ c :: post] [pre ++ post]
    (by rw [hflat1, hflat2]; exact h1) (by rw [hflat1, hflat2]; exact h2)
  exact ⟨h1, h2, hshift.1, hshift.2⟩

def c6Hero : Hero := ⟨"Groot", "https://marvelrivals.fandom.com/wiki/Groot", none⟩

def c6Pre : List Candidate :=
  [⟨"Celestial", "/wiki/Celestial", .ok [⟨[⟨["ID NO."], ["1011002"]⟩]⟩]⟩]

def c6Post : List Candidate :=
  [⟨"Bark Side", "/wiki/Bark_Side", .ok [⟨[⟨["ID NO."], ["1011003"]⟩]⟩]⟩]

/-- A battlepass candidate whose ID extraction would even have
succeeded. -/
def c6Bp : Candidate :=
  ⟨"Winter Soldier (Battlepass)", "/wiki/WS", .ok [⟨[⟨["ID NO."], ["1011005"]⟩]⟩]⟩

def c6Tw : Candidate := ⟨"Twitch Drop Alpha", "/wiki/TW", .ok []⟩

/-- Witness for C6 at the spec's own examples. -/
theorem c6_exclusion_filter_witness :
    (processCandidates c6Hero (c6Pre ++ c6Bp :: c6Post)).1 =
      (processCandidates c6Hero (c6Pre ++ c6Post)).1 ∧
    (processCandidates c6Hero (c6Pre ++ c6Bp :: c6Post)).2 =
      (processCandidates c6Hero (c6Pre ++ c6Post)).2 + 1 ∧
    (processCandidates c6Hero (c6Pre ++ c6Tw :: c6Post)).1 =
      (processCandidates c6Hero (c6Pre ++ c6Post)).1 := by
  have h1 := c6_exclusion_filter c6Hero c6Pre c6Post c6Bp rfl (by decide)
  have h2 := c6_exclusion_filter c6Hero c6Pre c6Post c6Tw rfl (by decide)
  exact ⟨h1.1, h1.2.1, h2.1⟩

/-! ### Claim C7 -/

/-- C7: whenever the candidate loop leaves a non-empty skin list,
`fetch_hero_skins` succeeds and returns that list with exactly one
synthesized default skin appended as the last element: its name is
"<hero.name> (Default)", its url the hero's own page, and its id the
first surviving skin's id's first 4 characters followed by "001". -/
theorem c7_default_skin_synthesis (hero : Hero) (tabs : List (List Candidate))
    (s0 : HeroSkin) (rest : List HeroSkin) (sid : String)
    (hp : (processCandidates hero tabs.flatten).1 = s0 :: rest)
    (hid : s0.id = some sid) :
    fetch_hero_skins hero (.ok tabs) =
      (.ok
        (((s0 :: rest) ++
            [(⟨hero, hero.name ++ " (Default)", hero.url,
              some (strTake 4 sid ++ "001")⟩ : HeroSkin)]).map
            (fun s : HeroSkin => { s with base_hero :=
              { hero with id := pyOrStr hero.id (strTake 4 sid ++ "001") } }),
         { hero with id := pyOrStr hero.id (strTake 4 sid ++ "001") }),
       1 + (processCandidates hero tabs.flatten).2) := by
  rcases hpc : processCandidates hero tabs.flatten with ⟨skins2, n2⟩
  rw [hpc] at hp
  dsimp only at hp
  subst hp
  exact fetch_hero_skins_cons hero tabs s0 rest n2 sid hpc hid

def c7Hero : Hero := ⟨"Groot", "https://marvelrivals.fandom.com/wiki/Groot", none⟩

def c7Tabs : List (List Candidate) :=
  [[⟨"Celestial", "/wiki/Celestial", .ok [⟨[⟨["ID NO."], ["1011002"]⟩]⟩]⟩]]

def c7S0 : HeroSkin :=
  ⟨c7Hero, "Celestial", "https://marvelrivals.fandom.com/wiki/Celestial", some "1011002"⟩

def c7HeroDone : Hero := ⟨"Groot", "https://marvelrivals.fandom.com/wiki/Groot", some "1011001"⟩

/-- Witness for C7 at the spec's Groot example: first real skin id
"1011002" yields default id "1011001" and name "Groot (Default)". -/
theorem c7_default_skin_synthesis_witness :
    fetch_hero_skins c7Hero (.ok c7Tabs) =
      (.ok
        ([⟨c7HeroDone, "Celestial", "https://marvelrivals.fandom.com/wiki/Celestial",
            some "1011002"⟩,
          ⟨c7HeroDone, "Groot (Default)", "https://marvelrivals.fandom.com/wiki/Groot",
            some "1011001"⟩],
         c7HeroDone),
       2) := by
  have h := c7_default_skin_synthesis c7Hero c7Tabs c7S0 [] "1011002" rfl rfl
  exact h.trans rfl
